import Mathlib

/-!
Shallow embedding of scripts/hydro_analytics.py (class HydroKafkaTester and
function main) for verification of the frozen claims about its sweep
execution, metric reduction, provisioning and error handling.

Modelling conventions:
* Wall-clock measurements and broker behaviour are inputs of the model: an
  environment supplies, per run, the per-record acknowledgment latency in
  milliseconds (Option, with none modelling a future.get timeout after 10 s)
  and the measured run duration in seconds.
* Python floats are modelled by rationals.  The only float-sensitive integer
  computations in the script are int(n * 0.95), int(n * 0.99) (percentile
  indices) and int(original_size * factor) (modelled compressed sizes).  For
  these the model uses exact rational floors, which agree with the Python
  float results in every reachable case; see the comments on p95Index and
  compressedSizeBytes for the rounding analysis.
* Python exceptions are modelled with Except; an exception escaping main
  (only possible from create_topics, which is called before the try block)
  is Termination.crashed, which is the only path leaving the process with a
  non-zero exit status.  Returning from main normally (including after one of
  its two except handlers ran) is Termination.normal, exit status zero.
-/

namespace HydroKafka

/-- Exceptions of the script that are observable at the level of main:
FileNotFoundError from opening the workload file, KafkaTimeoutError from
future.get(timeout=10), StatisticsError from statistics.mean([]), and
ZeroDivisionError from a float division by zero. -/
inductive Exc
  | fileNotFound
  | timeout
  | statsError
  | zeroDiv
  deriving DecidableEq

/-- Decidable equality for Except values, used to evaluate the model on
concrete environments in witnesses and counterexamples. -/
instance {ε α : Type} [DecidableEq ε] [DecidableEq α] : DecidableEq (Except ε α) :=
fun a b =>
  match a, b with
  | .ok x, .ok y =>
    if h : x = y then isTrue (by rw [h]) else isFalse (fun hh => h (Except.ok.inj hh))
  | .error x, .error y =>
    if h : x = y then isTrue (by rw [h]) else isFalse (fun hh => h (Except.error.inj hh))
  | .ok _, .error _ => isFalse (fun hh => Except.noConfusion hh)
  | .error _, .ok _ => isFalse (fun hh => Except.noConfusion hh)

/-- One parsed workload record (a line of hydro_test_1000.json).  The core
treats the payload as opaque; the only parts of a record the script ever
reads are its turbine_type field (partition key, test_partitioning line 227)
and its serialized UTF-8 JSON byte length (size, test_compression line 132).
-/
structure Record where
  turbine_type : String
  size : Nat
  deriving DecidableEq

/-- A NewTopic argument of KafkaAdminClient.create_topics: name, partition
count, replication factor and optional topic configs. -/
structure TopicSpec where
  name : String
  num_partitions : Nat
  replication_factor : Nat
  topic_configs : List (String × String)
  deriving DecidableEq

/-- The literal topics list of HydroKafkaTester.create_topics (lines 23-40).
-/
def topicSpecs : List TopicSpec :=
  [⟨"hydro-main", 4, 1, [("retention.ms", "2592000000")]⟩,
   ⟨"hydro-batch-test", 3, 1, []⟩,
   ⟨"hydro-comp-none", 3, 1, []⟩,
   ⟨"hydro-comp-snappy", 3, 1, []⟩,
   ⟨"hydro-comp-lz4", 3, 1, []⟩,
   ⟨"hydro-comp-zstd", 3, 1, []⟩,
   ⟨"hydro-part-2", 2, 1, []⟩,
   ⟨"hydro-part-4", 4, 1, []⟩,
   ⟨"hydro-part-8", 8, 1, []⟩,
   ⟨"hydro-analytics", 8, 1,
     [("retention.ms", "31536000000"), ("segment.ms", "86400000"),
      ("cleanup.policy", "delete")]⟩]

/-- Per-topic outcome of a creation attempt, as logged by create_topics:
the topic was created, or TopicAlreadyExistsError was raised and caught. -/
inductive ProvisionStep
  | created
  | alreadyExists
  deriving DecidableEq

/-- Loop of create_topics (lines 42-47), threading the broker topic-name
state.  err i = true models admin.create_topics raising an administrative
error other than TopicAlreadyExistsError at the i-th call (bad broker
address, auth failure, ...): the except clause at line 46 only catches
TopicAlreadyExistsError, so such an error propagates (Except.error).
A creation attempt against an existing name raises TopicAlreadyExistsError,
which is caught and logged, and the loop continues with the next topic. -/
def createTopicsGo (err : Nat → Bool) : Nat → List String → List TopicSpec →
    Except Unit (List String × List ProvisionStep)
  | _, state, [] => .ok (state, [])
  | i, state, t :: ts =>
    if err i then .error ()
    else if state.contains t.name then
      (createTopicsGo err (i + 1) state ts).map (fun p => (p.1, .alreadyExists :: p.2))
    else
      (createTopicsGo err (i + 1) (t.name :: state) ts).map (fun p => (p.1, .created :: p.2))

/-- HydroKafkaTester.create_topics (lines 20-49): attempt creation of every
topic of the list against a broker whose existing topic names are state. -/
def create_topics (err : Nat → Bool) (state : List String) (ts : List TopicSpec) :
    Except Unit (List String × List ProvisionStep) :=
  createTopicsGo err 0 state ts

/-- The synchronous per-record send loop shared by test_batch_linger
(lines 84-88) and test_compression (lines 155-159): for each record, send it,
block on future.get(timeout=10), and append the elapsed milliseconds to the
latencies list.  lat i is the acknowledgment latency the environment assigns
to the i-th send of this run; none models the wait exceeding the timeout, in
which case future.get raises and the loop is abandoned with no further sends.
-/
def ackSendLoop (lat : Nat → Option ℚ) : Nat → List Record → Except Exc (List ℚ)
  | _, [] => .ok []
  | i, _ :: rs =>
    match lat i with
    | none => .error .timeout
    | some v => (ackSendLoop lat (i + 1) rs).map (fun l => v :: l)

/-- The per-record send loop of test_partitioning (lines 226-228): each
record is sent (keyed by its turbine_type) with no future.get and no
latencies.append, so the loop returns without having collected any latency
sample.  The returned list is the list of latency samples appended during
the loop, mirroring the latencies accumulator of the other two sweeps. -/
def partSendLoop : List Record → List ℚ
  | [] => []
  | _ :: rs => partSendLoop rs

/-- statistics.mean: arithmetic mean, raising StatisticsError (modelled as
none) on an empty sequence. -/
def avgLatency (l : List ℚ) : Option ℚ :=
  if l = [] then none else some (l.sum / (l.length : ℚ))

/-- The p95 index int(len(latencies) * 0.95) of line 96.  Rounding analysis:
the IEEE double nearest to 0.95 exceeds 95/100 by under 2 to the power -54
relative, so n times that double is at least 95*n/100 and exceeds it by under
half an ulp; rounding the product to nearest never reaches the next integer,
and Python int truncation therefore returns floor(95*n/100) = 19*n/20 for
every list length n arising here. -/
def p95Index (n : Nat) : Nat := 19 * n / 20

/-- The p99 index int(len(latencies) * 0.99) of line 97.  The double nearest
to 0.99 is below 99/100 by 0.45 ulp, so the product n times it is below
99*n/100 by under 2 to the power -54 relative, less than the minimal half
ulp; the rounded product never drops below an integer value of 99*n/100, and
truncation returns floor(99*n/100). -/
def p99Index (n : Nat) : Nat := 99 * n / 100

/-- sorted(latencies) of lines 96-97: ascending sort.  Python sorted is a
stable ascending sort; on rational values any ascending sort produces the
same list. -/
def sortedLatencies (l : List ℚ) : List ℚ := List.insertionSort (· ≤ ·) l

/-- sorted(latencies)[int(len(latencies) * 0.95)] (line 96).  The getD
default is irrelevant: for a nonempty list the index is in bounds. -/
def p95Sample (l : List ℚ) : ℚ := (sortedLatencies l).getD (p95Index l.length) 0

/-- sorted(latencies)[int(len(latencies) * 0.99)] (line 97). -/
def p99Sample (l : List ℚ) : ℚ := (sortedLatencies l).getD (p99Index l.length) 0

/-- The result dict of one batch/linger run (lines 99-107). -/
structure BatchResult where
  batch_size : Nat
  linger_ms : Nat
  throughput : ℚ
  avg_latency : ℚ
  p95_latency : ℚ
  p99_latency : ℚ
  duration : ℚ
  deriving DecidableEq

/-- The keys of the result dict literal of lines 99-107, in order.  These are
all the fields a batch/linger RunResult carries. -/
def batchResultKeys : List String :=
  ["batch_size", "linger_ms", "throughput", "avg_latency", "p95_latency",
   "p99_latency", "duration"]

/-- The (batch.size, linger.ms) configuration list of lines 56-63. -/
def batchLingerConfigs : List (Nat × Nat) :=
  [(16384, 0), (65536, 10), (262144, 50), (524288, 100), (1048576, 200), (1048576, 500)]

/-- One configuration iteration of test_batch_linger (lines 70-116 up to the
result append), also tracking whether producer.close() (line 115) ran.
Order of effects follows the source: the producer is opened, the workload
file is read (line 78; FileNotFoundError if absent), the first 1000 records
are sent synchronously (lines 84-88), then duration, throughput (float
division, raising on a zero duration), mean (raising on an empty latencies
list) and the percentile lookups are computed (lines 93-97).  producer.close()
is only reached after all of that succeeds: the script has no try/finally, so
any exception skips it. -/
def batchRun (cfg : Nat × Nat) (file : Option (List Record)) (lat : Nat → Option ℚ)
    (dur : ℚ) : Except Exc BatchResult × Bool :=
  match file with
  | none => (.error .fileNotFound, false)
  | some rs =>
    match ackSendLoop lat 0 (rs.take 1000) with
    | .error e => (.error e, false)
    | .ok lats =>
      if dur = 0 then (.error .zeroDiv, false)
      else
        match avgLatency lats with
        | none => (.error .statsError, false)
        | some avg =>
          (.ok ⟨cfg.1, cfg.2, ((rs.take 1000).length : ℚ) / dur, avg,
                p95Sample lats, p99Sample lats, dur⟩, true)

/-- The configuration loop of test_batch_linger (lines 67-116): c is the
index of the current configuration, used to address the environment.  An
exception in any iteration propagates out of the loop at once (there is no
per-configuration handler), so no later configuration runs and no results
list is produced. -/
def batchSweepGo (file : Option (List Record)) (lat : Nat → Nat → Option ℚ)
    (dur : Nat → ℚ) (c : Nat) : List (Nat × Nat) → Except Exc (List BatchResult)
  | [] => .ok []
  | cfg :: rest =>
    match (batchRun cfg file (lat c) (dur c)).1 with
    | .error e => .error e
    | .ok r => (batchSweepGo file lat dur (c + 1) rest).map (fun l => r :: l)

/-- HydroKafkaTester.test_batch_linger (lines 51-119). -/
def test_batch_linger (file : Option (List Record)) (lat : Nat → Nat → Option ℚ)
    (dur : Nat → ℚ) : Except Exc (List BatchResult) :=
  batchSweepGo file lat dur 0 batchLingerConfigs

/-- sum(len(json.dumps(r).encode(utf-8)) for r in records) (line 132). -/
def originalSize (records : List Record) : Nat := (records.map (fun r => r.size)).sum

/-- The algorithms list of test_compression (line 126). -/
def compAlgorithms : List String := ["none", "snappy", "lz4", "zstd"]

/-- compressed_size of lines 165-174: the original size for the codec none
(and for an algorithm missing from the factor dict, whose get default is
1.0), otherwise int(original_size * factor) with factor 0.40 for snappy,
0.35 for lz4, 0.25 for zstd.  The Nat divisions are the exact floors; for
snappy the double nearest to 0.40 is above 2/5 and for zstd 0.25 is exact,
so Python int(original_size * factor) equals these floors for every
reachable size.  (For lz4 the double nearest to 0.35 is below 7/20 and the
Python value can fall one below the floor at some multiples of 20; no claim
depends on the lz4 size.) -/
def compressedSizeBytes (algo : String) (original : Nat) : Nat :=
  if algo = "snappy" then 2 * original / 5
  else if algo = "lz4" then 7 * original / 20
  else if algo = "zstd" then original / 4
  else original

/-- compression_ratio of lines 165-175: 0.0 for the codec none, otherwise
(1 - compressed_size / original_size) * 100. -/
def compressionRatioPct (algo : String) (original : Nat) : ℚ :=
  if algo = "none" then 0
  else (1 - (compressedSizeBytes algo original : ℚ) / (original : ℚ)) * 100

/-- The result dict of one compression run (lines 176-184). -/
structure CompResult where
  algorithm : String
  throughput : ℚ
  avg_latency : ℚ
  original_size_mb : ℚ
  compressed_size_mb : ℚ
  compression_ratio : ℚ
  network_saved_mb : ℚ
  deriving DecidableEq

/-- One algorithm iteration of test_compression (lines 134-192 up to the
result append), tracking whether producer.close() (line 192) ran.  The
records sample and original size are computed once before the loop
(lines 129-132) and passed in.  Effect order follows the source: synchronous
sends (155-159), throughput (163, raising on a zero duration), mean (164,
raising on an empty latencies list), then the ratio block (165-175), whose
division raises if original is zero while the algorithm is not none (this is
unreachable from main: an empty sample already fails at the mean). -/
def compRun (algo : String) (records : List Record) (original : Nat)
    (lat : Nat → Option ℚ) (dur : ℚ) : Except Exc CompResult × Bool :=
  match ackSendLoop lat 0 records with
  | .error e => (.error e, false)
  | .ok lats =>
    if dur = 0 then (.error .zeroDiv, false)
    else
      match avgLatency lats with
      | none => (.error .statsError, false)
      | some avg =>
        if original = 0 ∧ ¬ algo = "none" then (.error .zeroDiv, false)
        else
          (.ok ⟨algo, (records.length : ℚ) / dur, avg,
                (original : ℚ) / 1024 / 1024,
                (compressedSizeBytes algo original : ℚ) / 1024 / 1024,
                compressionRatioPct algo original,
                ((original : ℚ) - (compressedSizeBytes algo original : ℚ)) / 1024 / 1024⟩,
           true)

/-- The algorithm loop of test_compression (lines 134-193); a is the index of
the current algorithm.  As in the other sweeps, an exception propagates and
aborts the loop. -/
def compSweepGo (records : List Record) (original : Nat) (lat : Nat → Nat → Option ℚ)
    (dur : Nat → ℚ) (a : Nat) : List String → Except Exc (List CompResult)
  | [] => .ok []
  | algo :: rest =>
    match (compRun algo records original (lat a) (dur a)).1 with
    | .error e => .error e
    | .ok r => (compSweepGo records original lat dur (a + 1) rest).map (fun l => r :: l)

/-- HydroKafkaTester.test_compression (lines 121-196): the workload file is
read once before the loop (line 129), taking the first 3000 records. -/
def test_compression (file : Option (List Record)) (lat : Nat → Nat → Option ℚ)
    (dur : Nat → ℚ) : Except Exc (List CompResult) :=
  match file with
  | none => .error .fileNotFound
  | some rs =>
    compSweepGo (rs.take 3000) (originalSize (rs.take 3000)) lat dur 0 compAlgorithms

/-- The partition counts list of test_partitioning (line 203). -/
def partitionCounts : List Nat := [2, 4, 8]

/-- The result dict of one partitioning run (lines 242-247). -/
structure PartResult where
  partitions : Nat
  throughput : ℚ
  duration : ℚ
  scaling_factor : ℚ
  deriving DecidableEq

/-- The partition-count loop of test_partitioning (lines 211-255): i indexes
the current run in the duration environment and baseline threads the
baseline_throughput variable (lines 209, 236-240).  The first run sets the
baseline and reports scaling factor 1.0 literally; every later run divides
its throughput by the baseline (a float division that raises if the baseline
is zero, possible only for an empty sample).  Throughput is
len(records)/duration, raising on a zero duration. -/
def partGo (records : List Record) (dur : Nat → ℚ) :
    Nat → Option ℚ → List Nat → Except Exc (List PartResult)
  | _, _, [] => .ok []
  | i, baseline, p :: rest =>
    if dur i = 0 then .error .zeroDiv
    else
      match baseline with
      | none =>
        (partGo records dur (i + 1) (some ((records.length : ℚ) / dur i)) rest).map
          (fun l => ⟨p, (records.length : ℚ) / dur i, dur i, 1⟩ :: l)
      | some b =>
        if b = 0 then .error .zeroDiv
        else
          (partGo records dur (i + 1) (some b) rest).map
            (fun l => ⟨p, (records.length : ℚ) / dur i, dur i,
                       ((records.length : ℚ) / dur i) / b⟩ :: l)

/-- HydroKafkaTester.test_partitioning (lines 198-258): the workload file is
read once before the loop (line 206), taking the first 4000 records. -/
def test_partitioning (file : Option (List Record)) (dur : Nat → ℚ) :
    Except Exc (List PartResult) :=
  match file with
  | none => .error .fileNotFound
  | some rs => partGo (rs.take 4000) dur 0 none partitionCounts

/-- How the process ends: normal models main returning (exit status zero,
including after one of its except handlers printed a message); crashed
models an exception escaping main uncaught (Python prints a traceback and
exits with a non-zero status). -/
inductive Termination
  | normal
  | crashed
  deriving DecidableEq

/-- The observable outcome of one invocation of main: the contents of
self.test_results (each sweep key present exactly when that sweep finished
and stored its results), which of the two except handlers printed, and how
the process ended. -/
structure MainResult where
  batch_linger : Option (List BatchResult)
  compression : Option (List CompResult)
  partitioning : Option (List PartResult)
  printedHelp : Bool
  printedGeneric : Bool
  termination : Termination
  deriving DecidableEq

/-- The environment of one invocation: the broker admin behaviour, the
pre-existing broker topics, the workload file contents (none = missing
file), and per-run acknowledgment latencies and measured durations for each
sweep. -/
structure Env where
  adminErr : Nat → Bool
  preexisting : List String
  file : Option (List Record)
  batchLat : Nat → Nat → Option ℚ
  batchDur : Nat → ℚ
  compLat : Nat → Nat → Option ℚ
  compDur : Nat → ℚ
  partDur : Nat → ℚ

/-- The handlers of main (lines 311-315): FileNotFoundError prints the
run-the-generator instruction; any other exception prints a generic message
with the exception text.  Both return normally from main. -/
def caughtResult (e : Exc) (b : Option (List BatchResult)) (c : Option (List CompResult))
    (p : Option (List PartResult)) : MainResult :=
  match e with
  | .fileNotFound => ⟨b, c, p, true, false, .normal⟩
  | _ => ⟨b, c, p, false, true, .normal⟩

/-- main (lines 290-315).  create_topics runs before the try block
(line 299): an administrative error there escapes main uncaught.  Inside the
try block the three sweeps run in order; each stores its results into
self.test_results at the end of its own method body, so a sweep that raises
stores nothing while earlier sweeps keep their entries.  The first matching
except clause handles the exception and main returns normally. -/
def main (env : Env) : MainResult :=
  match create_topics env.adminErr env.preexisting topicSpecs with
  | .error _ => ⟨none, none, none, false, false, .crashed⟩
  | .ok _ =>
    match test_batch_linger env.file env.batchLat env.batchDur with
    | .error e => caughtResult e none none none
    | .ok rb =>
      match test_compression env.file env.compLat env.compDur with
      | .error e => caughtResult e (some rb) none none
      | .ok rc =>
        match test_partitioning env.file env.partDur with
        | .error e => caughtResult e (some rb) (some rc) none
        | .ok rp => ⟨some rb, some rc, some rp, false, false, .normal⟩

/-- Whether an Except value is a success. -/
def exceptOk {ε α : Type} : Except ε α → Bool
  | .ok _ => true
  | .error _ => false

/-- A sample workload record: a record whose turbine_type is kaplan and whose
serialized JSON is 2 bytes (the smallest possible serialized record). -/
def rKap : Record := ⟨"kaplan", 2⟩

/-- A sample workload record whose serialized JSON is 100 bytes. -/
def rBig : Record := ⟨"kaplan", 100⟩

/-- Concrete environment: provisioning succeeds on an empty broker, the
workload file holds one record, every acknowledgment wait of the batch/linger
sweep times out, while the compression sweep would succeed (1 ms
acknowledgments); all measured durations are 1 second. -/
def envBatchTimeout : Env :=
  ⟨fun _ => false, [], some [rKap], fun _ _ => none, fun _ => 1,
   fun _ _ => some 1, fun _ => 1, fun _ => 1⟩

/-- Concrete environment: the first administrative call fails with an error
other than TopicAlreadyExistsError. -/
def envAdminFail : Env :=
  ⟨fun _ => true, [], none, fun _ _ => none, fun _ => 1,
   fun _ _ => none, fun _ => 1, fun _ => 1⟩

/-- Concrete environment: provisioning succeeds but the workload file is
missing. -/
def envNoFile : Env :=
  ⟨fun _ => false, [], none, fun _ _ => none, fun _ => 1,
   fun _ _ => none, fun _ => 1, fun _ => 1⟩

/-! ### General helper lemmas -/

theorem exceptOk_map {ε α β : Type} (f : α → β) (x : Except ε α) :
    exceptOk (Except.map f x) = exceptOk x := by
  cases x <;> rfl

theorem exceptOk_true {ε α : Type} (x : Except ε α) (h : exceptOk x = true) :
    ∃ a, x = .ok a := by
  cases x with
  | ok a => exact ⟨a, rfl⟩
  | error e => exact absurd h (by simp [exceptOk])

theorem exceptOk_false {ε α : Type} (x : Except ε α) (h : exceptOk x = false) :
    ∃ e, x = .error e := by
  cases x with
  | ok a => exact absurd h (by simp [exceptOk])
  | error e => exact ⟨e, rfl⟩

/-! ### Provisioning lemmas -/

theorem createTopicsGo_noErr (ts : List TopicSpec) : ∀ (i : Nat) (s : List String),
    exceptOk (createTopicsGo (fun _ => false) i s ts) = true := by
  induction ts with
  | nil => intro i s; rfl
  | cons t ts ih =>
    intro i s
    by_cases hc : t.name ∈ s
    · simp [createTopicsGo, hc, exceptOk_map, ih]
    · simp [createTopicsGo, hc, exceptOk_map, ih]

/-! ### Reduction lemmas for main -/

theorem main_of_admin_error (env : Env)
    (h : exceptOk (create_topics env.adminErr env.preexisting topicSpecs) = false) :
    main env = ⟨none, none, none, false, false, .crashed⟩ := by
  obtain ⟨e, he⟩ := exceptOk_false _ h
  unfold main
  rw [he]

theorem main_of_batch_error (env : Env)
    (h : exceptOk (create_topics env.adminErr env.preexisting topicSpecs) = true)
    (e : Exc) (he : test_batch_linger env.file env.batchLat env.batchDur = .error e) :
    main env = caughtResult e none none none := by
  obtain ⟨v, hv⟩ := exceptOk_true _ h
  unfold main
  rw [hv, he]

theorem test_batch_linger_noFile (lat : Nat → Nat → Option ℚ) (dur : Nat → ℚ) :
    test_batch_linger none lat dur = .error .fileNotFound := rfl

/-! ### Send-loop lemmas -/

theorem ackSendLoop_total (lat : Nat → Option ℚ) (f : Nat → ℚ)
    (h : ∀ i, lat i = some (f i)) :
    ∀ (rs : List Record) (k : Nat),
      ackSendLoop lat k rs = .ok ((List.range' k rs.length).map f) := by
  intro rs
  induction rs with
  | nil => intro k; rfl
  | cons r rs ih =>
    intro k
    simp only [ackSendLoop]
    rw [h k, ih (k + 1)]
    rfl

theorem partSendLoop_nil : ∀ rs : List Record, partSendLoop rs = [] := by
  intro rs
  induction rs with
  | nil => rfl
  | cons r rs ih => simpa [partSendLoop] using ih

/-! ### Percentile-index lemmas -/

theorem p95Index_lt (n : Nat) (h : 1 ≤ n) : p95Index n < n := by
  unfold p95Index
  rw [Nat.div_lt_iff_lt_mul (by norm_num)]
  omega

theorem p99Index_lt (n : Nat) (h : 1 ≤ n) : p99Index n < n := by
  unfold p99Index
  rw [Nat.div_lt_iff_lt_mul (by norm_num)]
  omega

theorem p95Index_eq_floor (n : Nat) : p95Index n = Nat.floor ((95 / 100 : ℚ) * (n : ℚ)) := by
  have h1 : (95 / 100 : ℚ) * (n : ℚ) = ((95 * n : ℕ) : ℚ) / ((100 : ℕ) : ℚ) := by
    push_cast
    ring
  rw [h1, Nat.floor_div_nat, Nat.floor_natCast]
  unfold p95Index
  rw [show (95 : ℕ) * n = 5 * (19 * n) by ring, show (100 : ℕ) = 5 * 20 from rfl,
    Nat.mul_div_mul_left _ _ (by norm_num)]

theorem p99Index_eq_floor (n : Nat) : p99Index n = Nat.floor ((99 / 100 : ℚ) * (n : ℚ)) := by
  have h1 : (99 / 100 : ℚ) * (n : ℚ) = ((99 * n : ℕ) : ℚ) / ((100 : ℕ) : ℚ) := by
    push_cast
    ring
  rw [h1, Nat.floor_div_nat, Nat.floor_natCast]
  rfl

theorem p95Index_le_p99Index (n : Nat) : p95Index n ≤ p99Index n := by
  unfold p95Index p99Index
  have h1 : 19 * n / 20 = 95 * n / 100 := by
    rw [show (95 : ℕ) * n = 5 * (19 * n) by ring, show (100 : ℕ) = 5 * 20 from rfl,
      Nat.mul_div_mul_left _ _ (by norm_num)]
  rw [h1]
  exact Nat.div_le_div_right (by omega)

theorem p95Sample_le_p99Sample (l : List ℚ) (h : l ≠ []) :
    p95Sample l ≤ p99Sample l := by
  have hlen : (sortedLatencies l).length = l.length := List.length_insertionSort _ _
  have hn : 1 ≤ l.length := List.length_pos.mpr h
  have h95 : p95Index l.length < (sortedLatencies l).length := by
    rw [hlen]; exact p95Index_lt _ hn
  have h99 : p99Index l.length < (sortedLatencies l).length := by
    rw [hlen]; exact p99Index_lt _ hn
  unfold p95Sample p99Sample
  rw [List.getD_eq_get _ _ h95, List.getD_eq_get _ _ h99]
  have hs : List.Sorted (· ≤ ·) (sortedLatencies l) := List.sorted_insertionSort _ _
  exact hs.rel_get_of_le (by simpa [Fin.le_def] using p95Index_le_p99Index l.length)

/-! ### Partitioning-loop reduction lemmas -/

theorem partGo_cons_none (records : List Record) (dur : Nat → ℚ) (i p : Nat)
    (rest : List Nat) (hd : ¬ dur i = 0) :
    partGo records dur i none (p :: rest) =
      (partGo records dur (i + 1) (some ((records.length : ℚ) / dur i)) rest).map
        (fun l => ⟨p, (records.length : ℚ) / dur i, dur i, 1⟩ :: l) := by
  simp only [partGo]
  rw [if_neg hd]

theorem partGo_cons_some (records : List Record) (dur : Nat → ℚ) (i : Nat) (b : ℚ)
    (p : Nat) (rest : List Nat) (hd : ¬ dur i = 0) (hb : ¬ b = 0) :
    partGo records dur i (some b) (p :: rest) =
      (partGo records dur (i + 1) (some b) rest).map
        (fun l => ⟨p, (records.length : ℚ) / dur i, dur i,
                   ((records.length : ℚ) / dur i) / b⟩ :: l) := by
  simp only [partGo]
  rw [if_neg hd, if_neg hb]

/-! ### Claim theorems -/

/-- C1 (amended): a run failure (any exception other than FileNotFoundError,
for example an acknowledgment timeout) inside the batch/linger sweep is NOT
caught per configuration: it propagates out of the sweep, so the remaining
configurations of that sweep and the whole compression and partitioning
sweeps are skipped, nothing at all is recorded for any of them, and the
failure is only caught by the generic handler at the top of main, which
prints the error and lets the process end normally. -/
theorem c1_failure_aborts_remaining (env : Env)
    (hok : exceptOk (create_topics env.adminErr env.preexisting topicSpecs) = true)
    (e : Exc) (he : test_batch_linger env.file env.batchLat env.batchDur = .error e)
    (hne : e ≠ .fileNotFound) :
    main env = ⟨none, none, none, false, true, .normal⟩ := by
  rw [main_of_batch_error env hok e he]
  cases e with
  | fileNotFound => exact absurd rfl hne
  | timeout => rfl
  | statsError => rfl
  | zeroDiv => rfl

/-- C1 witness: concrete instance of the amended claim, in the environment
where every batch/linger acknowledgment wait times out. -/
theorem c1_failure_aborts_remaining_witness :
    main envBatchTimeout = ⟨none, none, none, false, true, .normal⟩ :=
  c1_failure_aborts_remaining envBatchTimeout (by decide) .timeout (by decide) (by decide)

/-- C1 counterexample: in envBatchTimeout the very first batch/linger
configuration fails with a timeout while the compression sweep would succeed
on its own (its environment acknowledges every send in 1 ms), yet main
records no failed-configuration marker for the batch sweep (batch_linger is
absent) and never executes the compression or partitioning sweeps — refuting
the claim that the orchestrator catches the failure, records the
configuration as failed, and continues with the remaining configurations and
sweeps. -/
theorem c1_claim_counterexample :
    (main envBatchTimeout).batch_linger = none
    ∧ (main envBatchTimeout).compression = none
    ∧ (main envBatchTimeout).partitioning = none
    ∧ exceptOk (test_compression envBatchTimeout.file envBatchTimeout.compLat
        envBatchTimeout.compDur) = true
    ∧ (main envBatchTimeout).termination = .normal := by
  decide

/-- C2 (amended): in the batch/linger and compression sweeps the run loop
sends one record at a time and blocks on its acknowledgment before the next
send, appending exactly one LatencySample per input record, in input order
(the produced list is the environment's latency for send 0, then send 1,
...); the partitioning sweep instead sends every record without waiting for
an acknowledgment and appends no latency sample at all, so its latency
sequence is empty rather than of the sample's length. -/
theorem c2_one_sample_per_record (lat : Nat → Option ℚ) (f : Nat → ℚ)
    (h : ∀ i, lat i = some (f i)) (rs : List Record) :
    ackSendLoop lat 0 rs = .ok ((List.range rs.length).map f)
    ∧ ((List.range rs.length).map f).length = rs.length
    ∧ partSendLoop rs = [] := by
  refine ⟨?_, by simp, partSendLoop_nil rs⟩
  rw [List.range_eq_range']
  exact ackSendLoop_total lat f h rs 0

/-- C2 witness: on a two-record sample with acknowledgment latencies i + 1
the loop returns exactly the two latencies in send order. -/
theorem c2_one_sample_per_record_witness :
    ackSendLoop (fun i => some ((i : ℚ) + 1)) 0 [rKap, rKap]
      = .ok ((List.range ([rKap, rKap] : List Record).length).map (fun i => (i : ℚ) + 1))
    ∧ ((List.range ([rKap, rKap] : List Record).length).map (fun i => (i : ℚ) + 1)).length
      = ([rKap, rKap] : List Record).length
    ∧ partSendLoop [rKap, rKap] = [] :=
  c2_one_sample_per_record (fun i => some ((i : ℚ) + 1)) (fun i => (i : ℚ) + 1)
    (fun _ => rfl) [rKap, rKap]

/-- C2 counterexample: a partitioning run over a two-record sample collects
zero latency samples, not one per input record — refuting the claim that the
latency sequence has the sample's length for every run including the
partitioning sweep. -/
theorem c2_claim_counterexample :
    partSendLoop [rKap, rKap] = []
    ∧ ¬ (partSendLoop [rKap, rKap]).length = ([rKap, rKap] : List Record).length := by
  decide

/-- C3: for every non-empty latency sequence the reduction sorts ascending
(the lookup list is an ascending-sorted permutation of the input) and takes
the nearest-rank elements: the p95 index computed by the code equals
floor(0.95 * n) and the p99 index equals floor(0.99 * n), both indices are
in bounds, p95 and p99 are the sorted list's elements at those indices, and
for a 1000-record run the p95 index is exactly 950. -/
theorem c3_nearest_rank_percentiles (l : List ℚ) (h : l ≠ []) :
    List.Sorted (· ≤ ·) (sortedLatencies l)
    ∧ (sortedLatencies l).Perm l
    ∧ p95Index l.length = Nat.floor ((95 / 100 : ℚ) * (l.length : ℚ))
    ∧ p99Index l.length = Nat.floor ((99 / 100 : ℚ) * (l.length : ℚ))
    ∧ p95Index l.length < l.length
    ∧ p99Index l.length < l.length
    ∧ p95Sample l = (sortedLatencies l).getD (Nat.floor ((95 / 100 : ℚ) * (l.length : ℚ))) 0
    ∧ p99Sample l = (sortedLatencies l).getD (Nat.floor ((99 / 100 : ℚ) * (l.length : ℚ))) 0
    ∧ (l.length = 1000 → p95Sample l = (sortedLatencies l).getD 950 0) := by
  have hn : 1 ≤ l.length := List.length_pos.mpr h
  refine ⟨List.sorted_insertionSort _ _, List.perm_insertionSort _ _,
    p95Index_eq_floor _, p99Index_eq_floor _, p95Index_lt _ hn, p99Index_lt _ hn,
    ?_, ?_, ?_⟩
  · rw [← p95Index_eq_floor]
    rfl
  · rw [← p99Index_eq_floor]
    rfl
  · intro h1000
    unfold p95Sample
    rw [h1000]
    norm_num [p95Index]

/-- C3 witness: concrete three-element latency list. -/
theorem c3_nearest_rank_percentiles_witness :
    List.Sorted (· ≤ ·) (sortedLatencies [5, 1, 3])
    ∧ p95Sample [5, 1, 3]
      = (sortedLatencies [5, 1, 3]).getD
          (Nat.floor ((95 / 100 : ℚ) * (([5, 1, 3] : List ℚ).length : ℚ))) 0 :=
  ⟨(c3_nearest_rank_percentiles [5, 1, 3] (by decide)).1,
   (c3_nearest_rank_percentiles [5, 1, 3] (by decide)).2.2.2.2.2.2.1⟩

/-- C4 (amended): with the fixed reduction-factor model of lines 165-175,
the codec none yields ratio exactly 0 and a compressed size equal to the
original size, and for every record sample whose serialized size is at least
5 bytes (every real sample: a single serialized record is at least 2 bytes
and real samples are far larger) the zstd ratio is strictly greater than the
snappy ratio.  For sizes 1, 2 and 4 the two modeled ratios coincide because
the integer truncation int(original * factor) collapses 0.25 and 0.40. -/
theorem c4_compression_ordering (records : List Record)
    (h : 5 ≤ originalSize records) :
    compressionRatioPct "none" (originalSize records) = 0
    ∧ compressedSizeBytes "none" (originalSize records) = originalSize records
    ∧ compressionRatioPct "snappy" (originalSize records)
      < compressionRatioPct "zstd" (originalSize records) := by
  refine ⟨rfl, rfl, ?_⟩
  have hS : 0 < originalSize records := by omega
  have hcz : compressedSizeBytes "zstd" (originalSize records)
      < compressedSizeBytes "snappy" (originalSize records) := by
    show originalSize records / 4 < 2 * originalSize records / 5
    have h1 : originalSize records % 4 < 4 := Nat.mod_lt _ (by norm_num)
    have h2 : (2 * originalSize records) % 5 < 5 := Nat.mod_lt _ (by norm_num)
    have e1 : 4 * (originalSize records / 4) + originalSize records % 4
        = originalSize records := Nat.div_add_mod _ 4
    have e2 : 5 * (2 * originalSize records / 5) + (2 * originalSize records) % 5
        = 2 * originalSize records := Nat.div_add_mod _ 5
    generalize hx : originalSize records / 4 = x at *
    generalize hy : 2 * originalSize records / 5 = y at *
    generalize hr1 : originalSize records % 4 = r1 at *
    generalize hr2 : (2 * originalSize records) % 5 = r2 at *
    omega
  unfold compressionRatioPct
  rw [if_neg (by decide : ¬ ("snappy" : String) = "none"),
    if_neg (by decide : ¬ ("zstd" : String) = "none")]
  have hSQ : (0 : ℚ) < (originalSize records : ℚ) := by exact_mod_cast hS
  have hdiv : ((compressedSizeBytes "zstd" (originalSize records) : ℚ))
        / (originalSize records : ℚ)
      < ((compressedSizeBytes "snappy" (originalSize records) : ℚ))
        / (originalSize records : ℚ) := by
    rw [div_eq_mul_inv, div_eq_mul_inv]
    exact mul_lt_mul_of_pos_right (by exact_mod_cast hcz) (inv_pos.mpr hSQ)
  linarith

/-- C4 witness: a one-record sample of serialized size 100 bytes. -/
theorem c4_compression_ordering_witness :
    compressionRatioPct "none" (originalSize [rBig]) = 0
    ∧ compressedSizeBytes "none" (originalSize [rBig]) = originalSize [rBig]
    ∧ compressionRatioPct "snappy" (originalSize [rBig])
      < compressionRatioPct "zstd" (originalSize [rBig]) :=
  c4_compression_ordering [rBig] (by decide)

/-- C4 counterexample: a non-empty sample of two minimal records has
original size 4 > 0, and there the zstd and snappy modeled ratios are both
exactly 75, so zstd's ratio is NOT strictly greater than snappy's — refuting
the claim for arbitrary positive original sizes. -/
theorem c4_claim_counterexample :
    0 < originalSize [rKap, rKap]
    ∧ compressionRatioPct "zstd" (originalSize [rKap, rKap])
      = compressionRatioPct "snappy" (originalSize [rKap, rKap])
    ∧ ¬ (compressionRatioPct "snappy" (originalSize [rKap, rKap])
      < compressionRatioPct "zstd" (originalSize [rKap, rKap])) := by
  have h : originalSize [rKap, rKap] = 4 := rfl
  have hz : compressionRatioPct "zstd" (originalSize [rKap, rKap]) = 75 := by
    rw [h]
    unfold compressionRatioPct
    rw [if_neg (by decide : ¬ ("zstd" : String) = "none")]
    norm_num [show compressedSizeBytes "zstd" 4 = 1 from rfl]
  have hs : compressionRatioPct "snappy" (originalSize [rKap, rKap]) = 75 := by
    rw [h]
    unfold compressionRatioPct
    rw [if_neg (by decide : ¬ ("snappy" : String) = "none")]
    norm_num [show compressedSizeBytes "snappy" 4 = 1 from rfl]
  refine ⟨by decide, by rw [hz, hs], by rw [hz, hs]; norm_num⟩

/-- C5: in the partitioning sweep (partition counts 2, 4, 8) over any
non-empty sample with positive measured durations, the first RunResult
reports scaling factor exactly 1 (set literally at line 238), and each
subsequent result's scaling factor is its throughput divided by the first
run's throughput (the baseline captured at line 237). -/
theorem c5_scaling_baseline (rs : List Record) (dur : Nat → ℚ)
    (hd : ∀ i, 0 < dur i) (hrs : rs ≠ []) :
    test_partitioning (some rs) dur = .ok
      [⟨2, ((rs.take 4000).length : ℚ) / dur 0, dur 0, 1⟩,
       ⟨4, ((rs.take 4000).length : ℚ) / dur 1, dur 1,
          (((rs.take 4000).length : ℚ) / dur 1) / (((rs.take 4000).length : ℚ) / dur 0)⟩,
       ⟨8, ((rs.take 4000).length : ℚ) / dur 2, dur 2,
          (((rs.take 4000).length : ℚ) / dur 2) / (((rs.take 4000).length : ℚ) / dur 0)⟩] := by
  have hlen : 0 < (rs.take 4000).length := by
    rw [List.length_take]
    have := List.length_pos.mpr hrs
    omega
  have ht0 : ¬ ((rs.take 4000).length : ℚ) / dur 0 = 0 :=
    div_ne_zero (Nat.cast_ne_zero.mpr hlen.ne') (hd 0).ne'
  have hstep : test_partitioning (some rs) dur = partGo (rs.take 4000) dur 0 none [2, 4, 8] :=
    rfl
  rw [hstep]
  rw [partGo_cons_none _ _ _ _ _ (hd 0).ne',
    partGo_cons_some _ _ _ _ _ _ (hd 1).ne' ht0,
    partGo_cons_some _ _ _ _ _ _ (hd 2).ne' ht0]
  rfl

/-- C5 witness: one-record sample, all durations 1 second. -/
theorem c5_scaling_baseline_witness :
    test_partitioning (some [rKap]) (fun _ => (1 : ℚ)) = .ok
      [⟨2, ((([rKap] : List Record).take 4000).length : ℚ) / 1, 1, 1⟩,
       ⟨4, ((([rKap] : List Record).take 4000).length : ℚ) / 1, 1,
          (((([rKap] : List Record).take 4000).length : ℚ) / 1)
            / (((([rKap] : List Record).take 4000).length : ℚ) / 1)⟩,
       ⟨8, ((([rKap] : List Record).take 4000).length : ℚ) / 1, 1,
          (((([rKap] : List Record).take 4000).length : ℚ) / 1)
            / (((([rKap] : List Record).take 4000).length : ℚ) / 1)⟩] :=
  c5_scaling_baseline [rKap] (fun _ => 1) (fun _ => one_pos) (by decide)

/-- C6: provisioning treats an already-existing topic as success: with no
other administrative error, create_topics succeeds from every broker state
(in particular on a second identical call), and when every topic already
exists each outcome is the caught, logged AlreadyExists with the broker
state unchanged; an administrative error other than AlreadyExists is not
caught — create_topics is invoked before the try block of main, so main
crashes (non-zero exit) with no sweep executed and nothing recorded. -/
theorem c6_provisioning_idempotent (s : List String) (env : Env)
    (hbad : exceptOk (create_topics env.adminErr env.preexisting topicSpecs) = false) :
    exceptOk (create_topics (fun _ => false) s topicSpecs) = true
    ∧ create_topics (fun _ => false) (topicSpecs.map (fun t => t.name)) topicSpecs
      = .ok (topicSpecs.map (fun t => t.name),
             topicSpecs.map (fun _ => ProvisionStep.alreadyExists))
    ∧ main env = ⟨none, none, none, false, false, .crashed⟩ :=
  ⟨createTopicsGo_noErr topicSpecs 0 s, by decide, main_of_admin_error env hbad⟩

/-- C6 witness: concrete instance with an empty initial broker state and an
environment whose first administrative call fails. -/
theorem c6_provisioning_idempotent_witness :
    exceptOk (create_topics (fun _ => false) [] topicSpecs) = true
    ∧ create_topics (fun _ => false) (topicSpecs.map (fun t => t.name)) topicSpecs
      = .ok (topicSpecs.map (fun t => t.name),
             topicSpecs.map (fun _ => ProvisionStep.alreadyExists))
    ∧ main envAdminFail = ⟨none, none, none, false, false, .crashed⟩ :=
  c6_provisioning_idempotent [] envAdminFail (by decide)

/-- C7 (amended): the producer session of a batch/linger run is closed
exactly on the success path: producer.close() at line 115 is reached if and
only if the run produced a result, and on every failing path (timeout during
an acknowledgment wait, zero-duration division, empty-sample mean) the close
call is skipped and the exception propagates. -/
theorem c7_closed_iff_success (cfg : Nat × Nat) (file : Option (List Record))
    (lat : Nat → Option ℚ) (dur : ℚ) :
    (batchRun cfg file lat dur).2 = true
      ↔ exceptOk (batchRun cfg file lat dur).1 = true := by
  unfold batchRun
  split
  · simp [exceptOk]
  · split
    · simp [exceptOk]
    · split
      · simp [exceptOk]
      · split
        · simp [exceptOk]
        · simp [exceptOk]

/-- C7 counterexample: a run whose first acknowledgment wait times out exits
by the failure path with the producer session NOT closed — refuting the
claim that the session is closed on every exit path including failure. -/
theorem c7_claim_counterexample :
    (batchRun (16384, 0) (some [rKap]) (fun _ => none) 1).1 = .error .timeout
    ∧ (batchRun (16384, 0) (some [rKap]) (fun _ => none) 1).2 = false := by
  decide

/-- C8 (amended): the batch/linger RunResult dict carries the mean
(avg_latency), p95 and p99 latency fields but no median/p50 field, and every
RunResult the reduction produces satisfies p95_latency less-or-equal
p99_latency, both being nearest-rank percentiles of the same ascending-sorted
latency sequence. -/
theorem c8_result_percentile_order :
    ("avg_latency" ∈ batchResultKeys ∧ "p95_latency" ∈ batchResultKeys
      ∧ "p99_latency" ∈ batchResultKeys)
    ∧ ∀ (cfg : Nat × Nat) (file : Option (List Record)) (lat : Nat → Option ℚ)
        (dur : ℚ) (r : BatchResult), (batchRun cfg file lat dur).1 = .ok r →
          r.p95_latency ≤ r.p99_latency := by
  refine ⟨by decide, ?_⟩
  intro cfg file lat dur r h
  unfold batchRun at h
  split at h
  · exact absurd h (by simp)
  · split at h
    · exact absurd h (by simp)
    · rename_i lats heq
      split at h
      · exact absurd h (by simp)
      · split at h
        · exact absurd h (by simp)
        · rename_i avg ha
          have hne : lats ≠ [] := by
            intro hl
            rw [hl] at ha
            simp [avgLatency] at ha
          have h2 := Except.ok.inj h
          rw [← h2]
          exact p95Sample_le_p99Sample lats hne

/-- C8 witness: the key facts and, for the result of a concrete successful
run over a one-record sample with a 5 ms acknowledgment, the percentile
inequality. -/
theorem c8_result_percentile_order_witness :
    "avg_latency" ∈ batchResultKeys
    ∧ p95Sample [(5 : ℚ)] ≤ p99Sample [(5 : ℚ)] :=
  ⟨c8_result_percentile_order.1.1,
   c8_result_percentile_order.2 (16384, 0) (some [rKap]) (fun _ => some 5) 1
     ⟨16384, 0, ((([rKap] : List Record).take 1000).length : ℚ) / 1,
      ([(5 : ℚ)]).sum / ((([(5 : ℚ)] : List ℚ).length : ℚ)),
      p95Sample [(5 : ℚ)], p99Sample [(5 : ℚ)], 1⟩ rfl⟩

/-- C8 counterexample: the batch/linger result dict has no median field
under any of its plausible names — its keys are exactly batch_size,
linger_ms, throughput, avg_latency, p95_latency, p99_latency, duration — so
the claim that every RunResult contains a median (p50) latency is false. -/
theorem c8_claim_counterexample :
    ¬ "median" ∈ batchResultKeys
    ∧ ¬ "median_latency" ∈ batchResultKeys
    ∧ ¬ "p50" ∈ batchResultKeys
    ∧ ¬ "p50_latency" ∈ batchResultKeys := by
  decide

/-- C9 (amended): a missing workload file is caught by the FileNotFoundError
handler of main, which prints the run-the-generator instruction and lets
the process end normally; any other error raised inside the sweep phase is
caught by the generic handler, which reports it and ALSO lets the process
end normally (exit status zero, not non-zero); only an administrative error
during provisioning — raised before the try block — escapes main uncaught
and terminates the process with a non-zero status. -/
theorem c9_exit_paths (env : Env) :
    (exceptOk (create_topics env.adminErr env.preexisting topicSpecs) = true →
      env.file = none → main env = ⟨none, none, none, true, false, .normal⟩)
    ∧ (∀ e : Exc,
        exceptOk (create_topics env.adminErr env.preexisting topicSpecs) = true →
        e ≠ .fileNotFound →
        test_batch_linger env.file env.batchLat env.batchDur = .error e →
        (main env).printedGeneric = true ∧ (main env).termination = .normal)
    ∧ (exceptOk (create_topics env.adminErr env.preexisting topicSpecs) = false →
        (main env).termination = .crashed) := by
  refine ⟨?_, ?_, ?_⟩
  · intro hok hf
    have hb : test_batch_linger env.file env.batchLat env.batchDur
        = .error .fileNotFound := by
      rw [hf]
      exact test_batch_linger_noFile _ _
    rw [main_of_batch_error env hok .fileNotFound hb]
    rfl
  · intro e hok hne hb
    rw [main_of_batch_error env hok e hb]
    cases e with
    | fileNotFound => exact absurd rfl hne
    | timeout => exact ⟨rfl, rfl⟩
    | statsError => exact ⟨rfl, rfl⟩
    | zeroDiv => exact ⟨rfl, rfl⟩
  · intro hbad
    rw [main_of_admin_error env hbad]

/-- C9 witness: in the environment with a missing workload file, main
prints the corrective instruction and ends normally. -/
theorem c9_exit_paths_witness :
    main envNoFile = ⟨none, none, none, true, false, .normal⟩ :=
  (c9_exit_paths envNoFile).1 (by decide) rfl

/-- C9 counterexample: a timeout error raised inside the sweep phase reaches
the top level, is reported by the generic handler, and the process then ends
normally (exit status zero) — refuting the claim that such an error
terminates the process with a non-zero outcome (crashed is the only
non-zero exit of the model). -/
theorem c9_claim_counterexample :
    (main envBatchTimeout).printedGeneric = true
    ∧ (main envBatchTimeout).termination = .normal
    ∧ ¬ (main envBatchTimeout).termination = .crashed := by
  decide

/-- C10: for every latency-sequence length of at least 1 the nearest-rank
indices int(n * 0.95) and int(n * 0.99) are strictly below n, so the p95 and
p99 lookups into the sorted sequence are in bounds without clamping; for the
empty sequence (the only excluded case) statistics.mean raises, the mean
being undefined. -/
theorem c10_index_in_bounds (n : Nat) (h : 1 ≤ n) :
    p95Index n < n ∧ p99Index n < n ∧ avgLatency ([] : List ℚ) = none :=
  ⟨p95Index_lt n h, p99Index_lt n h, rfl⟩

/-- C10 witness: length 3. -/
theorem c10_index_in_bounds_witness :
    p95Index 3 < 3 ∧ p99Index 3 < 3 ∧ avgLatency ([] : List ℚ) = none :=
  c10_index_in_bounds 3 (by norm_num)

end HydroKafka
